import Mathlib

/-!
Verification of the `mbtest.imposters.responses` module: a shallow embedding of
the response/proxy/predicate-generator object model and its bidirectional
mapping to the nested key-value wire format (`as_structure` / `from_structure`),
together with proofs of the specified dispatch, round-trip, omission and
error-handling properties.

Documents are modelled as `JsonValue`; Python dictionaries become association
lists (first binding wins, as the builders never produce duplicate keys).
Python's dynamic operations (`in`, `[]`, `.get`, truthiness) are modelled by
`pyContains`, `pyGetItem`, `pyGet` and `pyTruthy`; fallible code runs in
`Except PyErr`.
-/

/-- Kinds of exceptions the translated code can raise. `notImplementedError`
is the "unrecognized response shape" failure of `BaseResponse.from_structure`. -/
inductive PyErr where
  | keyError
  | typeError
  | valueError
  | attributeError
  | notImplementedError
deriving DecidableEq

/-- A JSON document / Python value: null, booleans, integers, strings, arrays
and string-keyed objects. Numbers are modelled as integers (the wire format of
this module uses only integral numbers: status codes, waits, repeats). -/
inductive JsonValue where
  | null : JsonValue
  | bool : Bool → JsonValue
  | num : Int → JsonValue
  | str : String → JsonValue
  | arr : List JsonValue → JsonValue
  | obj : List (String × JsonValue) → JsonValue

/-- First-match association-list lookup: Python `d[k]` / `k in d` on a dict. -/
def getKey? : List (String × JsonValue) → String → Option JsonValue
  | [], _ => none
  | (k, v) :: rest, key => if k == key then some v else getKey? rest key

/-- Python truthiness of a value: `None`, `False`, `0`, `""` and empty
collections are falsy, everything else is truthy. -/
def pyTruthy : JsonValue → Bool
  | .null => false
  | .bool b => b
  | .num n => n != 0
  | .str s => !(s == "")
  | .arr l => !l.isEmpty
  | .obj l => !l.isEmpty

/-- Contiguous-sublist (substring) test on character lists. -/
def charsContain (needle : List Char) : List Char → Bool
  | [] => needle.isEmpty
  | c :: rest => needle.isPrefixOf (c :: rest) || charsContain needle rest

/-- Python `key in value`: key membership for dicts, substring test for
strings, element equality for lists; a `TypeError` for non-containers. -/
def pyContains : JsonValue → String → Except PyErr Bool
  | .obj kvs, k => .ok (getKey? kvs k).isSome
  | .str s, k => .ok (charsContain k.toList s.toList)
  | .arr vs, k =>
    .ok (vs.any fun v => match v with | .str s => s == k | _ => false)
  | _, _ => .error .typeError

/-- Python `value[key]`: dict item access, `KeyError` when the key is absent,
`TypeError` on non-dict values (string/list indices are not strings). -/
def pyGetItem : JsonValue → String → Except PyErr JsonValue
  | .obj kvs, k =>
    match getKey? kvs k with
    | some v => .ok v
    | none => .error .keyError
  | _, _ => .error .typeError

/-- Python `value.get(key, default)`: only dicts have `.get`; any other value
raises `AttributeError`. -/
def pyGet : JsonValue → String → JsonValue → Except PyErr JsonValue
  | .obj kvs, k, d => .ok ((getKey? kvs k).getD d)
  | _, _, _ => .error .attributeError

/-- Modelled from the spec: `JsonSerializable._add_if_true` (the base module is
not part of the sources) — "add key only if value is truthy"; omits `None`,
`False`, `0`, empty string, and empty collections identically. -/
def addIfTrue (m : List (String × JsonValue)) (k : String) (v : JsonValue) :
    List (String × JsonValue) :=
  if pyTruthy v then m ++ [(k, v)] else m

/-- Modelled from the spec: `JsonSerializable._set_if_in_dict` (base module not
in the sources) — set the attribute from the wire key when the key is present,
keep the current value otherwise. -/
def setIfInDict (d : JsonValue) (key : String) (current : JsonValue) :
    Except PyErr JsonValue := do
  let b ← pyContains d key
  if b then pyGetItem d key else pure current

/-- Modelled from the spec: the behaviors module (`Copy`) is not part of the
sources; per the spec it is an opaque serializable behavior fragment,
independently round-trippable via its own structure keys. -/
structure Copy where
  structureVal : JsonValue

/-- Modelled from the spec: `Copy.as_structure` serializes the opaque fragment. -/
def Copy.as_structure (c : Copy) : JsonValue := c.structureVal

/-- Modelled from the spec: `Copy.from_structure` parses the opaque fragment. -/
def Copy.from_structure (v : JsonValue) : Copy := ⟨v⟩

/-- Modelled from the spec: the behaviors module (`Lookup`) is not part of the
sources; an opaque serializable behavior fragment like `Copy`. -/
structure Lookup where
  structureVal : JsonValue

/-- Modelled from the spec: `Lookup.as_structure`. -/
def Lookup.as_structure (l : Lookup) : JsonValue := l.structureVal

/-- Modelled from the spec: `Lookup.from_structure`. -/
def Lookup.from_structure (v : JsonValue) : Lookup := ⟨v⟩

/-- Modelled from the spec: `furl` (third-party) wraps a URL string; `.url`
renders it back. The spec describes no normalization, so parsing is modelled
as wrapping the string; a non-string argument is a parse error. -/
structure Furl where
  url : String

/-- Modelled from the spec: `furl(...)` applied to a wire value. -/
def Furl.ofValue : JsonValue → Except PyErr Furl
  | .str s => .ok ⟨s⟩
  | _ => .error .valueError

/-- The `to` field of a `Proxy` holds either a structured URL or a plain
string (`Union[furl, str]` in the source). -/
inductive ProxyTo where
  | furl : Furl → ProxyTo
  | str : String → ProxyTo

/-- URL string of a proxy target: `self.to.url if isinstance(self.to, furl)
else self.to` (from `Proxy.as_structure`). -/
def ProxyTo.url : ProxyTo → String
  | .furl f => f.url
  | .str s => s

/-- Modelled from the spec: `Predicate.Operator` (predicates module not in the
sources) enumerates match operators — the spec names only EQUALS and writes
"etc." for the remaining members, which are taken from the Mountebank predicate
operators the module documents. -/
inductive Predicate.Operator where
  | EQUALS
  | DEEP_EQUALS
  | CONTAINS
  | STARTS_WITH
  | ENDS_WITH
  | MATCHES
  | EXISTS
deriving DecidableEq

/-- Modelled from the spec: Python `Predicate.Operator[name]` — enum lookup by
member name, raising a `KeyError` when the name is not a known member. -/
def Predicate.Operator.fromItem : JsonValue → Except PyErr Predicate.Operator
  | .str "EQUALS" => .ok .EQUALS
  | .str "DEEP_EQUALS" => .ok .DEEP_EQUALS
  | .str "CONTAINS" => .ok .CONTAINS
  | .str "STARTS_WITH" => .ok .STARTS_WITH
  | .str "ENDS_WITH" => .ok .ENDS_WITH
  | .str "MATCHES" => .ok .MATCHES
  | .str "EXISTS" => .ok .EXISTS
  | _ => .error .keyError

/-- `Response.Mode`: text or binary. -/
inductive Response.Mode where
  | TEXT
  | BINARY
deriving DecidableEq

/-- Wire tag of a `Response.Mode` member. -/
def Response.Mode.value : Response.Mode → String
  | .TEXT => "text"
  | .BINARY => "binary"

/-- Python `Response.Mode(tag)`: enum lookup by value, `ValueError` when the
tag matches no member. -/
def Response.Mode.ofValue : JsonValue → Except PyErr Response.Mode
  | .str "text" => .ok .TEXT
  | .str "binary" => .ok .BINARY
  | _ => .error .valueError

/-- `Proxy.Mode`: replay behavior of the proxy. -/
inductive Proxy.Mode where
  | ONCE
  | ALWAYS
  | TRANSPARENT
deriving DecidableEq

/-- Wire tag of a `Proxy.Mode` member. -/
def Proxy.Mode.value : Proxy.Mode → String
  | .ONCE => "proxyOnce"
  | .ALWAYS => "proxyAlways"
  | .TRANSPARENT => "proxyTransparent"

/-- Python `Proxy.Mode(tag)`: enum lookup by value, `ValueError` on an
unrecognized tag. -/
def Proxy.Mode.ofValue : JsonValue → Except PyErr Proxy.Mode
  | .str "proxyOnce" => .ok .ONCE
  | .str "proxyAlways" => .ok .ALWAYS
  | .str "proxyTransparent" => .ok .TRANSPARENT
  | _ => .error .valueError

/-- A Mountebank `is` response. Fields hold the raw stored Python values
(`JsonValue.null` models Python `None`); `repeat_` models the source field
`repeat` (a Lean keyword). `copy`/`lookup` are `None` or lists, as normalized
by the source constructor. -/
structure Response where
  _body : JsonValue
  status_code : JsonValue
  wait : JsonValue
  repeat_ : JsonValue
  headers : JsonValue
  mode : Response.Mode
  copy : Option (List Copy)
  decorate : JsonValue
  lookup : Option (List Lookup)
  shell_transform : JsonValue

/-- The `body` property: a markup tree is rendered to text and bytes are
UTF-8-decoded; `JsonValue` carries neither, so the property is the raw value. -/
def Response.body (r : Response) : JsonValue := r._body

/-- A TCP response: a single opaque data payload. -/
structure TcpResponse where
  data : JsonValue

/-- A predicate generator for recorded stubs. Fields hold raw stored values:
the parser stores whatever stands under the wire keys (or Python `None`). -/
structure PredicateGenerator where
  path : JsonValue
  query : JsonValue
  operator : Predicate.Operator
  case_sensitive : JsonValue

/-- A Mountebank proxy. `to_` models the source field `to` (a Lean keyword);
`predicate_generators` is a plain list (never null): the source constructor
replaces `None` by `[]`. -/
structure Proxy where
  to_ : ProxyTo
  wait : JsonValue
  inject_headers : JsonValue
  mode : Proxy.Mode
  predicate_generators : List PredicateGenerator

/-- An injection response: a single script-text field. -/
structure InjectionResponse where
  inject : JsonValue

/-- The polymorphic response hierarchy rooted at `BaseResponse`. -/
inductive BaseResponse where
  | response : Response → BaseResponse
  | tcp : TcpResponse → BaseResponse
  | proxy : Proxy → BaseResponse
  | injection : InjectionResponse → BaseResponse

/-- `BaseResponse` variants are classes in the source; these constructors make
the variant normalization of the `Response.__init__` mode argument explicit:
`mode if isinstance(mode, Mode) else Mode(mode) if mode else Mode.TEXT`
restricted to the typed path (`None` or a `Mode` member). -/
def Response.init (body status_code wait repeat_ headers : JsonValue)
    (mode : Option Response.Mode) (copy : Option (List Copy))
    (decorate : JsonValue) (lookup : Option (List Lookup))
    (shell_transform : JsonValue) : Response :=
  { _body := body, status_code, wait, repeat_, headers
    mode := mode.getD .TEXT, copy, decorate, lookup, shell_transform }

/-- `Response._is_structure`: `{"statusCode": ..., "_mode": ...}` plus `body`
and `headers` when truthy (via `_add_if_true`); `body` goes through the
`body` property. -/
def Response._is_structure (r : Response) : List (String × JsonValue) :=
  addIfTrue (addIfTrue
    [("statusCode", r.status_code), ("_mode", .str r.mode.value)]
    "body" r.body) "headers" r.headers

/-- The `copy` contribution to `_behaviors_structure`:
`if self.copy: behaviors["copy"] = [c.as_structure() for c in self.copy]`. -/
def Response.copyPart : Option (List Copy) → List (String × JsonValue)
  | some l => if l.isEmpty then [] else [("copy", .arr (l.map Copy.as_structure))]
  | none => []

/-- The `lookup` contribution to `_behaviors_structure`. -/
def Response.lookupPart : Option (List Lookup) → List (String × JsonValue)
  | some l => if l.isEmpty then [] else [("lookup", .arr (l.map Lookup.as_structure))]
  | none => []

/-- `Response._behaviors_structure`: `wait`, `repeat`, `decorate`,
`shellTransform` when truthy, then `copy` and `lookup` when non-empty. -/
def Response._behaviors_structure (r : Response) : List (String × JsonValue) :=
  addIfTrue (addIfTrue (addIfTrue (addIfTrue [] "wait" r.wait)
    "repeat" r.repeat_) "decorate" r.decorate) "shellTransform" r.shell_transform
    ++ Response.copyPart r.copy ++ Response.lookupPart r.lookup

/-- `Response.as_structure`:
`{"is": self._is_structure(), "_behaviors": self._behaviors_structure()}`. -/
def Response.as_structure (r : Response) : JsonValue :=
  .obj [("is", .obj r._is_structure), ("_behaviors", .obj r._behaviors_structure)]

/-- `Response.from_structure`: builds a default `Response()`, reads the `is`
block (`body` if present, then `_mode` — required —, `headers`, `statusCode`),
then the optional `_behaviors` block (`wait`, `repeat`, `decorate`,
`shellTransform` via `_set_if_in_dict`, and `copy`/`lookup` element-wise). -/
def Response.from_structure (s : JsonValue) : Except PyErr Response := do
  let inner ← pyGetItem s "is"
  let _body ← setIfInDict inner "body" (.str "")
  let modeV ← pyGetItem inner "_mode"
  let mode ← Response.Mode.ofValue modeV
  let headers ← setIfInDict inner "headers" .null
  let status_code ← setIfInDict inner "statusCode" (.num 200)
  let behaviors ← pyGet s "_behaviors" (.obj [])
  let wait ← setIfInDict behaviors "wait" .null
  let repeat_ ← setIfInDict behaviors "repeat" .null
  let decorate ← setIfInDict behaviors "decorate" .null
  let shell_transform ← setIfInDict behaviors "shellTransform" .null
  let copyIn ← pyContains behaviors "copy"
  let copy ← if copyIn then (do
      let cv ← pyGetItem behaviors "copy"
      match cv with
      | .arr items => pure (some (items.map Copy.from_structure))
      | _ => Except.error .typeError)
    else pure none
  let lookupIn ← pyContains behaviors "lookup"
  let lookup ← if lookupIn then (do
      let lv ← pyGetItem behaviors "lookup"
      match lv with
      | .arr items => pure (some (items.map Lookup.from_structure))
      | _ => Except.error .typeError)
    else pure none
  pure { _body, status_code, wait, repeat_, headers, mode, copy, decorate,
         lookup, shell_transform }

/-- `TcpResponse.as_structure`: `{"is": {"data": self.data}}`. -/
def TcpResponse.as_structure (t : TcpResponse) : JsonValue :=
  .obj [("is", .obj [("data", t.data)])]

/-- `TcpResponse.from_structure`: `TcpResponse(data=structure["is"]["data"])`. -/
def TcpResponse.from_structure (s : JsonValue) : Except PyErr TcpResponse := do
  let inner ← pyGetItem s "is"
  let d ← pyGetItem inner "data"
  pure ⟨d⟩

/-- `PredicateGenerator.__init__` defaults: `path=False`, `query=False`,
`operator=Predicate.Operator.EQUALS`, `case_sensitive=True`. -/
def PredicateGenerator.defaultInit : PredicateGenerator :=
  { path := .bool false, query := .bool false, operator := .EQUALS,
    case_sensitive := .bool true }

/-- The `matches` block built by `PredicateGenerator.as_structure` (a local
dict in the source): `path` and `query` when truthy. -/
def PredicateGenerator._matches_structure (pg : PredicateGenerator) :
    List (String × JsonValue) :=
  addIfTrue (addIfTrue [] "path" pg.path) "query" pg.query

/-- `PredicateGenerator.as_structure`: the `matches` block under
`{"caseSensitive": ..., "matches": ...}`. -/
def PredicateGenerator.as_structure (pg : PredicateGenerator) : JsonValue :=
  .obj [("caseSensitive", pg.case_sensitive),
        ("matches", .obj pg._matches_structure)]

/-- `PredicateGenerator.from_structure`: `matches.path` / `matches.query`
(default `None`), operator by enum-name lookup when the `operator` key is
present (default EQUALS), `caseSensitive` with default `False`. -/
def PredicateGenerator.from_structure (s : JsonValue) :
    Except PyErr PredicateGenerator := do
  let matches_ ← pyGetItem s "matches"
  let path ← pyGet matches_ "path" .null
  let query ← pyGet matches_ "query" .null
  let opIn ← pyContains s "operator"
  let operator ← if opIn then (do
      let ov ← pyGetItem s "operator"
      Predicate.Operator.fromItem ov)
    else pure Predicate.Operator.EQUALS
  let case_sensitive ← pyGet s "caseSensitive" (.bool false)
  pure { path, query, operator, case_sensitive }

/-- `Proxy.__init__`: stores the arguments, replacing a `None`
`predicate_generators` by the empty list. Source defaults: `wait=None`,
`inject_headers=None`, `mode=Mode.ONCE`, `predicate_generators=None`. -/
def Proxy.init (to_ : ProxyTo) (wait inject_headers : JsonValue)
    (mode : Proxy.Mode) (predicate_generators : Option (List PredicateGenerator)) :
    Proxy :=
  { to_, wait, inject_headers, mode,
    predicate_generators := predicate_generators.getD [] }

/-- The `proxy` block built by `Proxy.as_structure` (a local dict in the
source): `to` (URL string) and `mode`, plus `injectHeaders` and
`predicateGenerators` when truthy. -/
def Proxy._proxy_structure (p : Proxy) : List (String × JsonValue) :=
  addIfTrue (addIfTrue
    [("to", .str p.to_.url), ("mode", .str p.mode.value)]
    "injectHeaders" p.inject_headers)
    "predicateGenerators" (.arr (p.predicate_generators.map PredicateGenerator.as_structure))

/-- `Proxy.as_structure`: the `proxy` block, and a top-level `_behaviors.wait`
only when `wait` is truthy. -/
def Proxy.as_structure (p : Proxy) : JsonValue :=
  .obj ([("proxy", .obj p._proxy_structure)] ++
    (if pyTruthy p.wait then [("_behaviors", .obj [("wait", p.wait)])] else []))

/-- `Proxy.from_structure`: reads `proxy.to` (through `furl`),
`proxy.injectHeaders` if present, `proxy.mode` (required), and
`proxy.predicateGenerators` element-wise if present (else `None`, which the
constructor turns into `[]`); then sets `wait` from `_behaviors.wait` only if
that value is truthy. -/
def Proxy.from_structure (s : JsonValue) : Except PyErr Proxy := do
  let ps ← pyGetItem s "proxy"
  let toV ← pyGetItem ps "to"
  let toF ← Furl.ofValue toV
  let ihIn ← pyContains ps "injectHeaders"
  let inject_headers ← if ihIn then pyGetItem ps "injectHeaders" else pure .null
  let modeV ← pyGetItem ps "mode"
  let mode ← Proxy.Mode.ofValue modeV
  let pgIn ← pyContains ps "predicateGenerators"
  let pgs ← if pgIn then (do
      let v ← pyGetItem ps "predicateGenerators"
      match v with
      | .arr items => (do
          let l ← items.mapM PredicateGenerator.from_structure
          pure (some l))
      | _ => Except.error .typeError)
    else pure none
  let behaviors ← pyGet s "_behaviors" (.obj [])
  let wait ← pyGet behaviors "wait" .null
  let p := Proxy.init (.furl toF) .null inject_headers mode pgs
  pure (if pyTruthy wait then { p with wait } else p)

/-- `InjectionResponse.as_structure`: `{"inject": self.inject}`. -/
def InjectionResponse.as_structure (i : InjectionResponse) : JsonValue :=
  .obj [("inject", i.inject)]

/-- `InjectionResponse.from_structure`:
`InjectionResponse(inject=structure["inject"])`. -/
def InjectionResponse.from_structure (s : JsonValue) :
    Except PyErr InjectionResponse := do
  let v ← pyGetItem s "inject"
  pure ⟨v⟩

/-- `BaseResponse.from_structure`: structural dispatch, in source order —
`is` with `_behaviors` → `Response`; `is` whose value contains `data` (and no
`_behaviors`) → `TcpResponse`; `proxy` → `Proxy`; `inject` →
`InjectionResponse`; otherwise `NotImplementedError`. The conjuncts of each
`if` are evaluated left to right with Python short-circuiting. -/
def BaseResponse.from_structure (s : JsonValue) : Except PyErr BaseResponse := do
  let isIn ← pyContains s "is"
  let c1 ← if isIn then pyContains s "_behaviors" else pure false
  if c1 then
    Except.map BaseResponse.response (Response.from_structure s)
  else
    let c2 ← if isIn then (do
        let inner ← pyGetItem s "is"
        pyContains inner "data")
      else pure false
    if c2 then
      Except.map BaseResponse.tcp (TcpResponse.from_structure s)
    else
      let c3 ← pyContains s "proxy"
      if c3 then
        Except.map BaseResponse.proxy (Proxy.from_structure s)
      else
        let c4 ← pyContains s "inject"
        if c4 then
          Except.map BaseResponse.injection (InjectionResponse.from_structure s)
        else
          Except.error .notImplementedError

/-! Helper lemmas: reduction of the `Except` monad, association-list algebra
for the structure builders, and enum round trips. -/

theorem ok_bind {α β : Type} (a : α) (f : α → Except PyErr β) :
    (Except.ok a >>= f) = f a := rfl

theorem error_bind {α β : Type} (e : PyErr) (f : α → Except PyErr β) :
    ((Except.error e : Except PyErr α) >>= f) = Except.error e := rfl

theorem pure_eq_ok {α : Type} (a : α) : (pure a : Except PyErr α) = Except.ok a := rfl

theorem map_ok {α β : Type} (f : α → β) (a : α) :
    Except.map f (Except.ok a : Except PyErr α) = Except.ok (f a) := rfl

theorem map_error {α β : Type} (f : α → β) (e : PyErr) :
    Except.map f (Except.error e : Except PyErr α) = Except.error e := rfl

theorem getKey?_append (m l : List (String × JsonValue)) (k : String) :
    getKey? (m ++ l) k =
      match getKey? m k with
      | some v => some v
      | none => getKey? l k := by
  induction m with
  | nil => simp [getKey?]
  | cons p rest ih =>
    obtain ⟨k', v⟩ := p
    by_cases h : k' == k <;> simp [getKey?, h, ih]

theorem getKey?_addIfTrue_ne (m : List (String × JsonValue)) (k k' : String)
    (v : JsonValue) (h : k ≠ k') :
    getKey? (addIfTrue m k' v) k = getKey? m k := by
  unfold addIfTrue
  split
  · rw [getKey?_append]
    have hne : ¬ k' = k := fun hh => h hh.symm
    cases hm : getKey? m k <;> simp [getKey?, beq_iff_eq, hne]
  · rfl

theorem getKey?_addIfTrue_self (m : List (String × JsonValue)) (k : String)
    (v : JsonValue) (h : getKey? m k = none) :
    getKey? (addIfTrue m k v) k = if pyTruthy v then some v else none := by
  unfold addIfTrue
  split
  · rw [getKey?_append, h]
    simp [getKey?]
  · exact h

theorem setIfInDict_obj (kvs : List (String × JsonValue)) (k : String)
    (cur : JsonValue) :
    setIfInDict (.obj kvs) k cur = Except.ok ((getKey? kvs k).getD cur) := by
  unfold setIfInDict
  cases h : getKey? kvs k <;>
    simp [pyContains, pyGetItem, h, ok_bind, pure_eq_ok]

theorem respMode_ofValue_value (m : Response.Mode) :
    Response.Mode.ofValue (.str m.value) = Except.ok m := by
  cases m <;> rfl

theorem proxyMode_ofValue_value (m : Proxy.Mode) :
    Proxy.Mode.ofValue (.str m.value) = Except.ok m := by
  cases m <;> rfl

theorem copy_map_roundtrip (l : List Copy) :
    (l.map Copy.as_structure).map Copy.from_structure = l := by
  induction l with
  | nil => rfl
  | cons c rest ih => simp [ih, Copy.as_structure, Copy.from_structure]

theorem lookup_map_roundtrip (l : List Lookup) :
    (l.map Lookup.as_structure).map Lookup.from_structure = l := by
  induction l with
  | nil => rfl
  | cons c rest ih => simp [ih, Lookup.as_structure, Lookup.from_structure]

/-- An optional raw field in restorable position: Python `None` or truthy. -/
def nullOrTruthy (v : JsonValue) : Prop := v = .null ∨ pyTruthy v = true

theorem restore_null (v : JsonValue) (h : nullOrTruthy v) :
    ((if pyTruthy v then some v else none).getD .null) = v := by
  rcases h with h | h
  · subst h; rfl
  · rw [if_pos h]; rfl

theorem restore_default (v d : JsonValue) (h : v = d ∨ pyTruthy v = true) :
    ((if pyTruthy v then some v else none).getD d) = v := by
  rcases h with h | h
  · subst h; split <;> rfl
  · rw [if_pos h]; rfl

/-! Key-by-key characterizations of the emitted blocks. -/

theorem isS_statusCode (r : Response) :
    getKey? r._is_structure "statusCode" = some r.status_code := by
  unfold Response._is_structure
  rw [getKey?_addIfTrue_ne _ _ _ _ (by decide),
      getKey?_addIfTrue_ne _ _ _ _ (by decide)]
  rfl

theorem isS_mode (r : Response) :
    getKey? r._is_structure "_mode" = some (.str r.mode.value) := by
  unfold Response._is_structure
  rw [getKey?_addIfTrue_ne _ _ _ _ (by decide),
      getKey?_addIfTrue_ne _ _ _ _ (by decide)]
  rfl

theorem isS_body (r : Response) :
    getKey? r._is_structure "body" =
      if pyTruthy r._body then some r._body else none := by
  unfold Response._is_structure
  rw [getKey?_addIfTrue_ne _ _ _ _ (by decide), getKey?_addIfTrue_self]
  all_goals rfl

theorem isS_headers (r : Response) :
    getKey? r._is_structure "headers" =
      if pyTruthy r.headers then some r.headers else none := by
  unfold Response._is_structure
  rw [getKey?_addIfTrue_self]
  rw [getKey?_addIfTrue_ne _ _ _ _ (by decide)]
  rfl

theorem copyPart_ne (c : Option (List Copy)) (k : String) (h : k ≠ "copy") :
    getKey? (Response.copyPart c) k = none := by
  have hne : ¬ ("copy" = k) := fun hh => h hh.symm
  cases c with
  | none => rfl
  | some l =>
    simp only [Response.copyPart]
    split
    · rfl
    · simp [getKey?, beq_iff_eq, hne]

theorem lookupPart_ne (c : Option (List Lookup)) (k : String) (h : k ≠ "lookup") :
    getKey? (Response.lookupPart c) k = none := by
  have hne : ¬ ("lookup" = k) := fun hh => h hh.symm
  cases c with
  | none => rfl
  | some l =>
    simp only [Response.lookupPart]
    split
    · rfl
    · simp [getKey?, beq_iff_eq, hne]

theorem copyPart_copy (c : Option (List Copy)) :
    getKey? (Response.copyPart c) "copy" =
      match c with
      | some l => if l.isEmpty then none else some (.arr (l.map Copy.as_structure))
      | none => none := by
  cases c with
  | none => rfl
  | some l => by_cases hl : l.isEmpty = true <;> simp [Response.copyPart, hl, getKey?]

theorem lookupPart_lookup (c : Option (List Lookup)) :
    getKey? (Response.lookupPart c) "lookup" =
      match c with
      | some l => if l.isEmpty then none else some (.arr (l.map Lookup.as_structure))
      | none => none := by
  cases c with
  | none => rfl
  | some l => by_cases hl : l.isEmpty = true <;> simp [Response.lookupPart, hl, getKey?]

/-- Lookup of one of the four scalar behavior keys in `_behaviors_structure`:
the `copy`/`lookup` tails never shadow them. -/
theorem behS_scalar (r : Response) (k : String)
    (hc : k ≠ "copy") (hl : k ≠ "lookup")
    (h : getKey? (addIfTrue (addIfTrue (addIfTrue (addIfTrue [] "wait" r.wait)
      "repeat" r.repeat_) "decorate" r.decorate) "shellTransform"
      r.shell_transform) k = o) :
    getKey? r._behaviors_structure k = o := by
  unfold Response._behaviors_structure
  rw [getKey?_append, getKey?_append, h]
  cases o with
  | some v => rfl
  | none => rw [copyPart_ne _ _ hc, lookupPart_ne _ _ hl]

theorem behS_wait (r : Response) :
    getKey? r._behaviors_structure "wait" =
      if pyTruthy r.wait then some r.wait else none := by
  refine behS_scalar r _ (by decide) (by decide) ?_
  rw [getKey?_addIfTrue_ne _ _ _ _ (by decide),
      getKey?_addIfTrue_ne _ _ _ _ (by decide),
      getKey?_addIfTrue_ne _ _ _ _ (by decide),
      getKey?_addIfTrue_self]
  all_goals rfl

theorem behS_repeat (r : Response) :
    getKey? r._behaviors_structure "repeat" =
      if pyTruthy r.repeat_ then some r.repeat_ else none := by
  refine behS_scalar r _ (by decide) (by decide) ?_
  rw [getKey?_addIfTrue_ne _ _ _ _ (by decide),
      getKey?_addIfTrue_ne _ _ _ _ (by decide),
      getKey?_addIfTrue_self]
  rw [getKey?_addIfTrue_ne _ _ _ _ (by decide)]
  rfl

theorem behS_decorate (r : Response) :
    getKey? r._behaviors_structure "decorate" =
      if pyTruthy r.decorate then some r.decorate else none := by
  refine behS_scalar r _ (by decide) (by decide) ?_
  rw [getKey?_addIfTrue_ne _ _ _ _ (by decide),
      getKey?_addIfTrue_self]
  rw [getKey?_addIfTrue_ne _ _ _ _ (by decide),
      getKey?_addIfTrue_ne _ _ _ _ (by decide)]
  rfl

theorem behS_shellTransform (r : Response) :
    getKey? r._behaviors_structure "shellTransform" =
      if pyTruthy r.shell_transform then some r.shell_transform else none := by
  refine behS_scalar r _ (by decide) (by decide) ?_
  rw [getKey?_addIfTrue_self]
  rw [getKey?_addIfTrue_ne _ _ _ _ (by decide),
      getKey?_addIfTrue_ne _ _ _ _ (by decide),
      getKey?_addIfTrue_ne _ _ _ _ (by decide)]
  rfl

theorem behS_copy (r : Response) :
    getKey? r._behaviors_structure "copy" =
      match r.copy with
      | some l => if l.isEmpty then none else some (.arr (l.map Copy.as_structure))
      | none => none := by
  unfold Response._behaviors_structure
  rw [getKey?_append, getKey?_append]
  rw [getKey?_addIfTrue_ne _ _ _ _ (by decide),
      getKey?_addIfTrue_ne _ _ _ _ (by decide),
      getKey?_addIfTrue_ne _ _ _ _ (by decide),
      getKey?_addIfTrue_ne _ _ _ _ (by decide)]
  rw [show getKey? ([] : List (String × JsonValue)) "copy" = none from rfl]
  rw [copyPart_copy]
  have hlp : getKey? (Response.lookupPart r.lookup) "copy" = none :=
    lookupPart_ne r.lookup "copy" (by decide)
  cases hc : r.copy with
  | none => simpa using hlp
  | some l =>
    cases hl : l.isEmpty with
    | false => simp [hl]
    | true => simp [hl, hlp]

theorem behS_lookup (r : Response) :
    getKey? r._behaviors_structure "lookup" =
      match r.lookup with
      | some l => if l.isEmpty then none else some (.arr (l.map Lookup.as_structure))
      | none => none := by
  unfold Response._behaviors_structure
  rw [getKey?_append, getKey?_append]
  rw [getKey?_addIfTrue_ne _ _ _ _ (by decide),
      getKey?_addIfTrue_ne _ _ _ _ (by decide),
      getKey?_addIfTrue_ne _ _ _ _ (by decide),
      getKey?_addIfTrue_ne _ _ _ _ (by decide)]
  rw [show getKey? ([] : List (String × JsonValue)) "lookup" = none from rfl]
  rw [copyPart_ne _ _ (by decide), lookupPart_lookup]

theorem pyGetItem_of_getKey (kvs : List (String × JsonValue)) (k : String)
    (v : JsonValue) (h : getKey? kvs k = some v) :
    pyGetItem (.obj kvs) k = .ok v := by
  simp [pyGetItem, h]

theorem matchesS_path (p q : JsonValue) :
    getKey? (addIfTrue (addIfTrue [] "path" p) "query" q) "path" =
      if pyTruthy p then some p else none := by
  rw [getKey?_addIfTrue_ne _ _ _ _ (by decide), getKey?_addIfTrue_self]
  all_goals rfl

theorem matchesS_query (p q : JsonValue) :
    getKey? (addIfTrue (addIfTrue [] "path" p) "query" q) "query" =
      if pyTruthy q then some q else none := by
  rw [getKey?_addIfTrue_self]
  rw [getKey?_addIfTrue_ne _ _ _ _ (by decide)]
  rfl

theorem proxyS_to (p : Proxy) :
    getKey? p._proxy_structure "to" = some (.str p.to_.url) := by
  unfold Proxy._proxy_structure
  rw [getKey?_addIfTrue_ne _ _ _ _ (by decide),
      getKey?_addIfTrue_ne _ _ _ _ (by decide)]
  rfl

theorem proxyS_mode (p : Proxy) :
    getKey? p._proxy_structure "mode" = some (.str p.mode.value) := by
  unfold Proxy._proxy_structure
  rw [getKey?_addIfTrue_ne _ _ _ _ (by decide),
      getKey?_addIfTrue_ne _ _ _ _ (by decide)]
  rfl

theorem proxyS_injectHeaders (p : Proxy) :
    getKey? p._proxy_structure "injectHeaders" =
      if pyTruthy p.inject_headers then some p.inject_headers else none := by
  unfold Proxy._proxy_structure
  rw [getKey?_addIfTrue_ne _ _ _ _ (by decide), getKey?_addIfTrue_self]
  all_goals rfl

theorem proxyS_predicateGenerators (p : Proxy) :
    getKey? p._proxy_structure "predicateGenerators" =
      if pyTruthy (.arr (p.predicate_generators.map PredicateGenerator.as_structure))
      then some (.arr (p.predicate_generators.map PredicateGenerator.as_structure))
      else none := by
  unfold Proxy._proxy_structure
  rw [getKey?_addIfTrue_self]
  rw [getKey?_addIfTrue_ne _ _ _ _ (by decide)]
  rfl

/-! Round trips. -/

theorem tcp_roundtrip (t : TcpResponse) :
    TcpResponse.from_structure t.as_structure = .ok t := rfl

theorem injection_roundtrip (i : InjectionResponse) :
    InjectionResponse.from_structure i.as_structure = .ok i := rfl

theorem pyGet_obj (kvs : List (String × JsonValue)) (k : String) (d : JsonValue) :
    pyGet (.obj kvs) k d = .ok ((getKey? kvs k).getD d) := rfl

theorem pg_roundtrip (pg : PredicateGenerator)
    (hp : nullOrTruthy pg.path) (hq : nullOrTruthy pg.query)
    (ho : pg.operator = Predicate.Operator.EQUALS) :
    PredicateGenerator.from_structure pg.as_structure = .ok pg := by
  have hm : pyGetItem pg.as_structure "matches" =
      .ok (.obj (addIfTrue (addIfTrue [] "path" pg.path) "query" pg.query)) := rfl
  have hop : pyContains pg.as_structure "operator" = .ok false := rfl
  have hcs : pyGet pg.as_structure "caseSensitive" (.bool false) =
      .ok pg.case_sensitive := rfl
  simp only [PredicateGenerator.from_structure, hm, ok_bind, pyGet_obj,
    matchesS_path, matchesS_query, restore_null _ hp, restore_null _ hq,
    hop, hcs, Bool.false_eq_true, if_false, pure_eq_ok]
  rw [← ho]

theorem pg_mapM_roundtrip (l : List PredicateGenerator)
    (h : ∀ pg ∈ l, nullOrTruthy pg.path ∧ nullOrTruthy pg.query ∧
      pg.operator = Predicate.Operator.EQUALS) :
    (l.map PredicateGenerator.as_structure).mapM PredicateGenerator.from_structure
      = .ok l := by
  induction l with
  | nil => rfl
  | cons x xs ih =>
    obtain ⟨hp, hq, ho⟩ := h x (by simp)
    rw [List.map_cons, List.mapM_cons, pg_roundtrip x hp hq ho, ok_bind,
        ih (fun pg hm => h pg (by simp [hm]))]
    rfl

theorem pyTruthy_null : pyTruthy .null = false := rfl

theorem pyTruthy_arr (l : List JsonValue) : pyTruthy (.arr l) = !l.isEmpty := rfl

theorem proxy_roundtrip (p : Proxy)
    (hw : nullOrTruthy p.wait) (hi : nullOrTruthy p.inject_headers)
    (hpg : ∀ pg ∈ p.predicate_generators, nullOrTruthy pg.path ∧
      nullOrTruthy pg.query ∧ pg.operator = Predicate.Operator.EQUALS) :
    Proxy.from_structure p.as_structure =
      .ok { p with to_ := .furl ⟨p.to_.url⟩ } := by
  obtain ⟨t0, wait, ih, mode, pgs⟩ := p
  dsimp only at hw hi hpg ⊢
  have hmode : Proxy.Mode.ofValue (.str mode.value) = .ok mode :=
    proxyMode_ofValue_value mode
  have hmapm := pg_mapM_roundtrip pgs hpg
  rcases hw with hw | hw <;> rcases hi with hi | hi <;> cases pgs <;>
    simp only [List.map_nil, List.map_cons] at hmapm <;>
    simp only [Proxy.from_structure, Proxy.as_structure, Proxy._proxy_structure,
      pyGetItem, pyContains, pyGet, getKey?, addIfTrue, pyTruthy_null,
      pyTruthy_arr, List.map_nil, List.map_cons, List.isEmpty_nil,
      List.isEmpty_cons, Bool.not_true, Bool.not_false, Bool.false_eq_true,
      if_false, if_true, String.reduceBEq, beq_self_eq_true, Option.isSome_none,
      Option.isSome_some, Option.getD_some, Option.getD_none, ok_bind,
      pure_eq_ok, error_bind, Furl.ofValue, hmode, Proxy.init, hw, hi, hmapm,
      reduceIte]

theorem copy_from_as (c : Copy) : Copy.from_structure (Copy.as_structure c) = c := rfl

theorem lookup_from_as (l : Lookup) :
    Lookup.from_structure (Lookup.as_structure l) = l := rfl

theorem pyContains_obj (kvs : List (String × JsonValue)) (k : String) :
    pyContains (.obj kvs) k = .ok (getKey? kvs k).isSome := rfl

theorem resp_as_is (r : Response) :
    pyGetItem r.as_structure "is" = .ok (.obj r._is_structure) := rfl

theorem resp_as_beh (r : Response) :
    pyGet r.as_structure "_behaviors" (.obj []) =
      .ok (.obj r._behaviors_structure) := rfl

theorem resp_is_mode (r : Response) :
    pyGetItem (.obj r._is_structure) "_mode" = .ok (.str r.mode.value) :=
  pyGetItem_of_getKey _ _ _ (isS_mode r)

theorem pyGetItem_behS_copy (r : Response) (x : Copy) (xs : List Copy)
    (h : r.copy = some (x :: xs)) :
    pyGetItem (.obj r._behaviors_structure) "copy" =
      .ok (.arr ((x :: xs).map Copy.as_structure)) :=
  pyGetItem_of_getKey _ _ _ (by rw [behS_copy, h]; rfl)

theorem pyGetItem_behS_lookup (r : Response) (x : Lookup) (xs : List Lookup)
    (h : r.lookup = some (x :: xs)) :
    pyGetItem (.obj r._behaviors_structure) "lookup" =
      .ok (.arr ((x :: xs).map Lookup.as_structure)) :=
  pyGetItem_of_getKey _ _ _ (by rw [behS_lookup, h]; rfl)

theorem response_roundtrip (r : Response)
    (hw : nullOrTruthy r.wait) (hr : nullOrTruthy r.repeat_)
    (hd : nullOrTruthy r.decorate) (hs : nullOrTruthy r.shell_transform)
    (hh : nullOrTruthy r.headers)
    (hb : r._body = .str "" ∨ pyTruthy r._body = true)
    (hc : r.copy = none ∨ ∃ x xs, r.copy = some (x :: xs))
    (hl : r.lookup = none ∨ ∃ x xs, r.lookup = some (x :: xs)) :
    Response.from_structure r.as_structure = .ok r := by
  obtain ⟨b0, sc0, w0, rp0, hd0, md0, cp0, dc0, lk0, st0⟩ := r
  dsimp only at hw hr hd hs hh hb hc hl ⊢
  rcases hc with hc | ⟨cx, cxs, hc⟩ <;> rcases hl with hl | ⟨lx, lxs, hl⟩ <;>
    simp only [Response.from_structure, resp_as_is, resp_as_beh, resp_is_mode,
      ok_bind, setIfInDict_obj, isS_body, isS_headers, isS_statusCode,
      behS_wait, behS_repeat, behS_decorate, behS_shellTransform, behS_copy,
      behS_lookup, pyContains_obj, restore_default _ _ hb, restore_null _ hw,
      restore_null _ hr, restore_null _ hd, restore_null _ hs,
      restore_null _ hh, Option.getD_some, respMode_ofValue_value, hc, hl,
      List.isEmpty_cons, List.isEmpty_nil, Bool.false_eq_true, if_false,
      if_true, Option.isSome_none, Option.isSome_some, pure_eq_ok, error_bind,
      ok_bind, List.map_cons, List.map_nil, reduceIte]
  · simp only [pyGetItem_behS_lookup
        ⟨b0, sc0, w0, rp0, hd0, md0, none, dc0, some (lx :: lxs), st0⟩
        lx lxs rfl, ok_bind, List.map_cons, List.map_nil, lookup_from_as,
      lookup_map_roundtrip, pure_eq_ok]
  · simp only [pyGetItem_behS_copy
        ⟨b0, sc0, w0, rp0, hd0, md0, some (cx :: cxs), dc0, none, st0⟩
        cx cxs rfl, ok_bind, List.map_cons, List.map_nil, copy_from_as,
      copy_map_roundtrip, pure_eq_ok]
  · simp only [pyGetItem_behS_copy
        ⟨b0, sc0, w0, rp0, hd0, md0, some (cx :: cxs), dc0, some (lx :: lxs), st0⟩
        cx cxs rfl,
      pyGetItem_behS_lookup
        ⟨b0, sc0, w0, rp0, hd0, md0, some (cx :: cxs), dc0, some (lx :: lxs), st0⟩
        lx lxs rfl,
      ok_bind, List.map_cons, List.map_nil, copy_from_as, copy_map_roundtrip,
      lookup_from_as, lookup_map_roundtrip, pure_eq_ok]

/-! Inversion lemmas for successful parses over arbitrary documents. -/

theorem pg_from_ok_inv (kvs : List (String × JsonValue)) (pg : PredicateGenerator)
    (hok : PredicateGenerator.from_structure (.obj kvs) = .ok pg) :
    pg.case_sensitive = (getKey? kvs "caseSensitive").getD (.bool false) ∧
    (getKey? kvs "operator" = none → pg.operator = Predicate.Operator.EQUALS) := by
  simp only [PredicateGenerator.from_structure, pyGetItem, pyContains_obj,
    ok_bind] at hok
  cases hm : getKey? kvs "matches" with
  | none => rw [hm] at hok; exact absurd hok (by simp [error_bind])
  | some mv =>
    rw [hm] at hok
    simp only [ok_bind] at hok
    cases mv <;> simp only [pyGet, error_bind, ok_bind, reduceCtorEq] at hok
    rename_i m
    cases hop : getKey? kvs "operator" with
    | none =>
      rw [hop] at hok
      simp only [Option.isSome_none, Bool.false_eq_true, if_false, pure_eq_ok,
        ok_bind] at hok
      cases hok
      exact ⟨rfl, fun _ => rfl⟩
    | some ov =>
      rw [hop] at hok
      simp only [Option.isSome_some, if_true, ok_bind] at hok
      cases hfi : Predicate.Operator.fromItem ov with
      | error e => rw [hfi] at hok; exact absurd hok (by simp [error_bind])
      | ok op =>
        rw [hfi] at hok
        simp only [ok_bind, pure_eq_ok] at hok
        cases hok
        exact ⟨rfl, fun h => absurd h (by simp [hop])⟩

theorem pyGetItem_none (kvs : List (String × JsonValue)) (k : String)
    (h : getKey? kvs k = none) :
    pyGetItem (.obj kvs) k = .error .keyError := by
  simp [pyGetItem, h]

theorem pg_from_operator_error (kvs m : List (String × JsonValue)) (ov : JsonValue)
    (hm : getKey? kvs "matches" = some (.obj m))
    (hop : getKey? kvs "operator" = some ov)
    (hfi : Predicate.Operator.fromItem ov = .error .keyError) :
    PredicateGenerator.from_structure (.obj kvs) = .error .keyError := by
  simp only [PredicateGenerator.from_structure, pyContains_obj,
    pyGetItem_of_getKey _ _ _ hm, pyGetItem_of_getKey _ _ _ hop, ok_bind,
    pyGet, hop, Option.isSome_some, if_true, hfi, error_bind]

theorem response_missing_mode (s : JsonValue) (inner : List (String × JsonValue))
    (h1 : pyGetItem s "is" = .ok (.obj inner))
    (h2 : getKey? inner "_mode" = none) :
    Response.from_structure s = .error .keyError := by
  simp only [Response.from_structure, h1, ok_bind, setIfInDict_obj,
    pyGetItem_none _ _ h2, error_bind]

theorem response_parse_sparse (inner : List (String × JsonValue))
    (mv : JsonValue) (md : Response.Mode)
    (hm : getKey? inner "_mode" = some mv)
    (hv : Response.Mode.ofValue mv = .ok md)
    (hb : getKey? inner "body" = none)
    (hh : getKey? inner "headers" = none)
    (hsc : getKey? inner "statusCode" = none) :
    Response.from_structure (.obj [("is", .obj inner)]) =
      .ok ⟨.str "", .num 200, .null, .null, .null, md, none, .null, none, .null⟩ := by
  have his : pyGetItem (JsonValue.obj [("is", .obj inner)]) "is" =
      .ok (.obj inner) := rfl
  have hbeh : pyGet (JsonValue.obj [("is", .obj inner)]) "_behaviors" (.obj []) =
      .ok (.obj []) := rfl
  simp only [Response.from_structure, his, hbeh, ok_bind, setIfInDict_obj,
    pyGetItem_of_getKey _ _ _ hm, hv, hb, hh, hsc, pyContains_obj, getKey?,
    Option.getD_none, Option.isSome_none, Bool.false_eq_true, if_false,
    pure_eq_ok, ok_bind]

theorem ok_of_bind {α β : Type} {e : Except PyErr α} {f : α → Except PyErr β}
    {b : β} (h : (e >>= f) = .ok b) : ∃ a, e = .ok a ∧ f a = .ok b := by
  cases e with
  | error err => exact absurd h (by simp [error_bind])
  | ok a => exact ⟨a, rfl, h⟩

theorem proxy_from_ok_pgs (s : JsonValue) (ps : List (String × JsonValue))
    (p : Proxy)
    (h1 : pyGetItem s "proxy" = .ok (.obj ps))
    (h2 : getKey? ps "predicateGenerators" = none)
    (hok : Proxy.from_structure s = .ok p) :
    p.predicate_generators = [] := by
  simp only [Proxy.from_structure, h1, ok_bind, pyContains_obj, h2,
    Option.isSome_none, Bool.false_eq_true, if_false, pure_eq_ok] at hok
  obtain ⟨tv, -, hok⟩ := ok_of_bind hok
  obtain ⟨tf, -, hok⟩ := ok_of_bind hok
  cases hcih : (getKey? ps "injectHeaders").isSome <;> rw [hcih] at hok <;>
    simp only [Bool.false_eq_true, if_false, if_true, pure_eq_ok, ok_bind] at hok
  case false =>
    obtain ⟨mv, -, hok⟩ := ok_of_bind hok
    obtain ⟨md, -, hok⟩ := ok_of_bind hok
    obtain ⟨bhv, -, hok⟩ := ok_of_bind hok
    obtain ⟨wv, -, hok⟩ := ok_of_bind hok
    cases hok
    split <;> rfl
  case true =>
    obtain ⟨ihv, -, hok⟩ := ok_of_bind hok
    obtain ⟨mv, -, hok⟩ := ok_of_bind hok
    obtain ⟨md, -, hok⟩ := ok_of_bind hok
    obtain ⟨bhv, -, hok⟩ := ok_of_bind hok
    obtain ⟨wv, -, hok⟩ := ok_of_bind hok
    cases hok
    split <;> rfl

/-! Claim theorems. -/

theorem contains_of_getItem (s : JsonValue) (k : String) (v : JsonValue)
    (h : pyGetItem s k = .ok v) : pyContains s k = .ok true := by
  cases s <;> simp only [pyGetItem, reduceCtorEq] at h
  rename_i kvs
  cases hg : getKey? kvs k with
  | none => rw [hg] at h; exact absurd h (by simp)
  | some w => simp [pyContains, hg]

/-- C1: dispatch correctness of `BaseResponse.from_structure`, in priority
order: a document containing both `is` and `_behaviors` is delegated to the
`Response` parser (even when the value under `is` also contains `data`, since
no such condition is consulted); a document containing `is` whose value
contains `data`, with `_behaviors` absent, is delegated to the `TcpResponse`
parser; otherwise a document containing `proxy` goes to the `Proxy` parser;
otherwise one containing `inject` goes to the `InjectionResponse` parser. -/
theorem C1_dispatch :
    (∀ s : JsonValue, pyContains s "is" = .ok true →
      pyContains s "_behaviors" = .ok true →
      BaseResponse.from_structure s =
        Except.map BaseResponse.response (Response.from_structure s)) ∧
    (∀ s v, pyContains s "_behaviors" = .ok false →
      pyGetItem s "is" = .ok v → pyContains v "data" = .ok true →
      BaseResponse.from_structure s =
        Except.map BaseResponse.tcp (TcpResponse.from_structure s)) ∧
    (∀ s, (pyContains s "is" = .ok false ∨
        (pyContains s "_behaviors" = .ok false ∧
          ∃ v, pyGetItem s "is" = .ok v ∧ pyContains v "data" = .ok false)) →
      pyContains s "proxy" = .ok true →
      BaseResponse.from_structure s =
        Except.map BaseResponse.proxy (Proxy.from_structure s)) ∧
    (∀ s, (pyContains s "is" = .ok false ∨
        (pyContains s "_behaviors" = .ok false ∧
          ∃ v, pyGetItem s "is" = .ok v ∧ pyContains v "data" = .ok false)) →
      pyContains s "proxy" = .ok false →
      pyContains s "inject" = .ok true →
      BaseResponse.from_structure s =
        Except.map BaseResponse.injection (InjectionResponse.from_structure s)) := by
  refine ⟨?_, ?_, ?_, ?_⟩
  · intro s h1 h2
    simp only [BaseResponse.from_structure, h1, h2, ok_bind, reduceIte]
  · intro s v hb hv hd
    have hIs := contains_of_getItem s "is" v hv
    simp only [BaseResponse.from_structure, hIs, hb, hv, hd, ok_bind,
      reduceIte, Bool.false_eq_true, if_false]
  · intro s hdisj hp
    rcases hdisj with h1 | ⟨hb, v, hv, hd⟩
    · simp only [BaseResponse.from_structure, h1, hp, ok_bind, reduceIte,
        Bool.false_eq_true, if_false, pure_eq_ok]
    · have hIs := contains_of_getItem s "is" v hv
      simp only [BaseResponse.from_structure, hIs, hb, hv, hd, hp, ok_bind,
        reduceIte, Bool.false_eq_true, if_false]
  · intro s hdisj hp hj
    rcases hdisj with h1 | ⟨hb, v, hv, hd⟩
    · simp only [BaseResponse.from_structure, h1, hp, hj, ok_bind, reduceIte,
        Bool.false_eq_true, if_false, pure_eq_ok]
    · have hIs := contains_of_getItem s "is" v hv
      simp only [BaseResponse.from_structure, hIs, hb, hv, hd, hp, hj, ok_bind,
        reduceIte, Bool.false_eq_true, if_false]

/-- Concrete documents exercising the four dispatch rules. -/
def dC1resp : JsonValue :=
  .obj [("is", .obj [("data", .str "x"), ("_mode", .str "text")]),
        ("_behaviors", .obj [])]

def dC1tcp : JsonValue := .obj [("is", .obj [("data", .str "ABC")])]

def dC1proxy : JsonValue :=
  .obj [("proxy", .obj [("to", .str "http://u"), ("mode", .str "proxyOnce")])]

def dC1inject : JsonValue := .obj [("inject", .str "function () {}")]

/-- C1 witness: the four dispatch rules applied at concrete documents; the
first document also contains `is.data`, yet is routed to the `Response`
parser. -/
theorem C1_dispatch_witness :
    (BaseResponse.from_structure dC1resp =
      Except.map BaseResponse.response (Response.from_structure dC1resp)) ∧
    (BaseResponse.from_structure dC1tcp =
      Except.map BaseResponse.tcp (TcpResponse.from_structure dC1tcp)) ∧
    (BaseResponse.from_structure dC1proxy =
      Except.map BaseResponse.proxy (Proxy.from_structure dC1proxy)) ∧
    (BaseResponse.from_structure dC1inject =
      Except.map BaseResponse.injection (InjectionResponse.from_structure dC1inject)) :=
  ⟨C1_dispatch.1 dC1resp rfl rfl,
   C1_dispatch.2.1 dC1tcp (.obj [("data", .str "ABC")]) rfl rfl rfl,
   C1_dispatch.2.2.1 dC1proxy (Or.inl rfl) rfl,
   C1_dispatch.2.2.2 dC1inject (Or.inl rfl) rfl rfl⟩

/-- Result of round-tripping the default `PredicateGenerator`: the falsy
`path`/`query` defaults (`False`) come back as Python `None`. -/
def pgRT : PredicateGenerator := ⟨.null, .null, .EQUALS, .bool true⟩

/-- C2 counterexample: the claim fails already for the default-constructed
`PredicateGenerator` — its `path` field is `False`, which is omitted from the
document (falsy) and parsed back as `None`, an observably different value;
this is not covered by the claim's caseSensitive-only exemption. -/
theorem C2_roundtrip_counterexample :
    PredicateGenerator.from_structure
        PredicateGenerator.defaultInit.as_structure = .ok pgRT ∧
    PredicateGenerator.defaultInit.path = JsonValue.bool false ∧
    pgRT.path = JsonValue.null ∧
    JsonValue.bool false ≠ JsonValue.null :=
  ⟨rfl, rfl, rfl, fun h => JsonValue.noConfusion h⟩

/-- C2 amended: `from_structure ∘ as_structure` reconstructs the observable
fields exactly for every `Response`, `TcpResponse`, `Proxy`,
`InjectionResponse` and `PredicateGenerator`, provided every optional field is
either unset (`None`) or set to a truthy value (a set-but-falsy value such as
`wait=0`, or the falsy `path`/`query` defaults, is reconstructed as the
parse-side default instead), the body is truthy or the default empty string,
`copy`/`lookup` are `None` or non-empty, each predicate generator's operator
is EQUALS (the operator is never serialized), and a `Proxy`'s `to` comes back
as a URL value rendering to the same URL string. -/
theorem C2_roundtrip_amended :
    (∀ r : Response, nullOrTruthy r.wait → nullOrTruthy r.repeat_ →
      nullOrTruthy r.decorate → nullOrTruthy r.shell_transform →
      nullOrTruthy r.headers →
      (r._body = .str "" ∨ pyTruthy r._body = true) →
      (r.copy = none ∨ ∃ x xs, r.copy = some (x :: xs)) →
      (r.lookup = none ∨ ∃ x xs, r.lookup = some (x :: xs)) →
      Response.from_structure r.as_structure = .ok r) ∧
    (∀ t : TcpResponse, TcpResponse.from_structure t.as_structure = .ok t) ∧
    (∀ p : Proxy, nullOrTruthy p.wait → nullOrTruthy p.inject_headers →
      (∀ pg ∈ p.predicate_generators, nullOrTruthy pg.path ∧
        nullOrTruthy pg.query ∧ pg.operator = Predicate.Operator.EQUALS) →
      Proxy.from_structure p.as_structure =
        .ok { p with to_ := .furl ⟨p.to_.url⟩ }) ∧
    (∀ pg : PredicateGenerator, nullOrTruthy pg.path → nullOrTruthy pg.query →
      pg.operator = Predicate.Operator.EQUALS →
      PredicateGenerator.from_structure pg.as_structure = .ok pg) ∧
    (∀ i : InjectionResponse,
      InjectionResponse.from_structure i.as_structure = .ok i) :=
  ⟨response_roundtrip, tcp_roundtrip, proxy_roundtrip, pg_roundtrip,
   injection_roundtrip⟩

/-- A concrete `Response` with representative truthy optional fields. -/
def rC2 : Response :=
  ⟨.str "hi", .num 200, .num 5, .null, .obj [("k", .str "v")], .TEXT,
   some [⟨.obj [("from", .str "a")]⟩], .str "js", none, .null⟩

/-- C2 witness: the amended round trip applied to a concrete `Response` and a
concrete `TcpResponse`. -/
theorem C2_roundtrip_witness :
    Response.from_structure rC2.as_structure = .ok rC2 ∧
    TcpResponse.from_structure (TcpResponse.as_structure ⟨.str "ABC"⟩) =
      .ok ⟨.str "ABC"⟩ :=
  ⟨C2_roundtrip_amended.1 rC2 (Or.inr rfl) (Or.inl rfl) (Or.inr rfl)
      (Or.inl rfl) (Or.inr rfl) (Or.inr rfl)
      (Or.inr ⟨⟨.obj [("from", .str "a")]⟩, [], rfl⟩) (Or.inl rfl),
   C2_roundtrip_amended.2.1 ⟨.str "ABC"⟩⟩

/-- C3: omission law — for every entity, each optional field whose in-memory
value is falsy (Python `None`, `False`, `0`, empty string or empty collection)
contributes no wire key to the emitted document: `body`/`headers` in the `is`
block, `wait`/`repeat`/`decorate`/`shellTransform`/`copy`/`lookup` in the
`_behaviors` block, `injectHeaders`/`predicateGenerators` in the `proxy`
block (and a falsy proxy `wait` suppresses the whole `_behaviors` key), and
`path`/`query` in a predicate generator's `matches` block. -/
theorem C3_omission :
    (∀ r : Response,
      (pyTruthy r._body = false → getKey? r._is_structure "body" = none) ∧
      (pyTruthy r.headers = false → getKey? r._is_structure "headers" = none) ∧
      (pyTruthy r.wait = false →
        getKey? r._behaviors_structure "wait" = none) ∧
      (pyTruthy r.repeat_ = false →
        getKey? r._behaviors_structure "repeat" = none) ∧
      (pyTruthy r.decorate = false →
        getKey? r._behaviors_structure "decorate" = none) ∧
      (pyTruthy r.shell_transform = false →
        getKey? r._behaviors_structure "shellTransform" = none) ∧
      ((r.copy = none ∨ r.copy = some []) →
        getKey? r._behaviors_structure "copy" = none) ∧
      ((r.lookup = none ∨ r.lookup = some []) →
        getKey? r._behaviors_structure "lookup" = none)) ∧
    (∀ p : Proxy,
      (pyTruthy p.inject_headers = false →
        getKey? p._proxy_structure "injectHeaders" = none) ∧
      (p.predicate_generators = [] →
        getKey? p._proxy_structure "predicateGenerators" = none) ∧
      (pyTruthy p.wait = false →
        pyContains p.as_structure "_behaviors" = .ok false)) ∧
    (∀ pg : PredicateGenerator,
      (pyTruthy pg.path = false →
        getKey? pg._matches_structure "path" = none) ∧
      (pyTruthy pg.query = false →
        getKey? pg._matches_structure "query" = none)) := by
  refine ⟨fun r => ⟨?_, ?_, ?_, ?_, ?_, ?_, ?_, ?_⟩,
    fun p => ⟨?_, ?_, ?_⟩, fun pg => ⟨?_, ?_⟩⟩
  · intro h; rw [isS_body, h]; rfl
  · intro h; rw [isS_headers, h]; rfl
  · intro h; rw [behS_wait, h]; rfl
  · intro h; rw [behS_repeat, h]; rfl
  · intro h; rw [behS_decorate, h]; rfl
  · intro h; rw [behS_shellTransform, h]; rfl
  · intro h; rw [behS_copy]; rcases h with h | h <;> simp [h]
  · intro h; rw [behS_lookup]; rcases h with h | h <;> simp [h]
  · intro h; rw [proxyS_injectHeaders, h]; rfl
  · intro h
    rw [proxyS_predicateGenerators, h]
    rfl
  · intro h
    simp only [Proxy.as_structure, h, Bool.false_eq_true, if_false,
      List.append_nil, pyContains_obj, getKey?, String.reduceBEq]
    rfl
  · intro h
    simp only [PredicateGenerator._matches_structure, matchesS_path, h,
      Bool.false_eq_true, if_false]
  · intro h
    simp only [PredicateGenerator._matches_structure, matchesS_query, h,
      Bool.false_eq_true, if_false]

/-- A `Proxy` whose optional fields are all falsy. -/
def pC3 : Proxy := Proxy.init (.str "http://u") .null .null .ONCE none

/-- A `Response` whose optional fields are all falsy. -/
def rC3 : Response :=
  ⟨.str "", .num 200, .null, .num 0, .null, .TEXT, some [], .str "", none, .null⟩

/-- C3 witness: the omission law applied at concrete falsy values — note the
set-but-falsy `repeat=0`, `decorate=""` and `copy=[]` fields. -/
theorem C3_omission_witness :
    getKey? rC3._is_structure "body" = none ∧
    getKey? rC3._is_structure "headers" = none ∧
    getKey? rC3._behaviors_structure "wait" = none ∧
    getKey? rC3._behaviors_structure "repeat" = none ∧
    getKey? rC3._behaviors_structure "decorate" = none ∧
    getKey? rC3._behaviors_structure "shellTransform" = none ∧
    getKey? rC3._behaviors_structure "copy" = none ∧
    getKey? rC3._behaviors_structure "lookup" = none ∧
    getKey? pC3._proxy_structure "injectHeaders" = none ∧
    getKey? pC3._proxy_structure "predicateGenerators" = none ∧
    pyContains pC3.as_structure "_behaviors" = .ok false ∧
    getKey? PredicateGenerator.defaultInit._matches_structure "path" = none ∧
    getKey? PredicateGenerator.defaultInit._matches_structure "query" = none :=
  ⟨(C3_omission.1 rC3).1 rfl, (C3_omission.1 rC3).2.1 rfl,
   (C3_omission.1 rC3).2.2.1 rfl, (C3_omission.1 rC3).2.2.2.1 rfl,
   (C3_omission.1 rC3).2.2.2.2.1 rfl, (C3_omission.1 rC3).2.2.2.2.2.1 rfl,
   (C3_omission.1 rC3).2.2.2.2.2.2.1 (Or.inr rfl),
   (C3_omission.1 rC3).2.2.2.2.2.2.2 (Or.inl rfl),
   (C3_omission.2.1 pC3).1 rfl, (C3_omission.2.1 pC3).2.1 rfl,
   (C3_omission.2.1 pC3).2.2 rfl,
   (C3_omission.2.2 PredicateGenerator.defaultInit).1 rfl,
   (C3_omission.2.2 PredicateGenerator.defaultInit).2 rfl⟩

/-- C4: the `is` block of `Response.as_structure` always contains
`statusCode` (whatever the stored value, including a falsy `0`) and `_mode`,
while `body` and `headers` appear in it exactly when their in-memory values
are truthy. -/
theorem C4_is_block (r : Response) :
    getKey? r._is_structure "statusCode" = some r.status_code ∧
    getKey? r._is_structure "_mode" = some (.str r.mode.value) ∧
    (getKey? r._is_structure "body").isSome = pyTruthy r._body ∧
    (getKey? r._is_structure "headers").isSome = pyTruthy r.headers := by
  refine ⟨isS_statusCode r, isS_mode r, ?_, ?_⟩
  · rw [isS_body]; cases pyTruthy r._body <;> rfl
  · rw [isS_headers]; cases pyTruthy r.headers <;> rfl

/-- A document matching none of the four dispatch shapes whose `is` value is a
number: the containment test `"data" in structure["is"]` is then a type
error, not the unrecognized-shape error. -/
def dC5 : JsonValue := .obj [("is", .num 5)]

/-- C5 counterexample: `{"is": 5}` contains no `is`-with-`_behaviors`, no
`is`-with-`data`, no `proxy` and no `inject` shape, yet dispatch fails with a
`TypeError` (from evaluating membership on the number under `is`) rather than
the unrecognized-response-shape `NotImplementedError` the claim promises for
every such document. -/
theorem C5_counterexample :
    pyContains dC5 "is" = .ok true ∧
    pyContains dC5 "_behaviors" = .ok false ∧
    pyContains dC5 "proxy" = .ok false ∧
    pyContains dC5 "inject" = .ok false ∧
    pyGetItem dC5 "is" = .ok (.num 5) ∧
    pyContains (.num 5) "data" = .error .typeError ∧
    BaseResponse.from_structure dC5 = .error .typeError ∧
    PyErr.typeError ≠ PyErr.notImplementedError :=
  ⟨rfl, rfl, rfl, rfl, rfl, rfl, rfl, fun h => PyErr.noConfusion h⟩

/-- C5 amended: for every document matching none of the four dispatch shapes,
`BaseResponse.from_structure` fails with the unrecognized-response-shape error
(`NotImplementedError`), provided the membership tests themselves are defined:
either `is` is absent, or `_behaviors` is absent and the value under `is`
supports the `data` containment test with a negative result. A document whose
`is` value is a non-container instead fails with a type error (see the
counterexample). The error is the function's result: no value is returned. -/
theorem C5_unrecognized_amended (s : JsonValue)
    (h1 : pyContains s "is" = .ok false ∨
      (pyContains s "_behaviors" = .ok false ∧
        ∃ v, pyGetItem s "is" = .ok v ∧ pyContains v "data" = .ok false))
    (h2 : pyContains s "proxy" = .ok false)
    (h3 : pyContains s "inject" = .ok false) :
    BaseResponse.from_structure s = .error .notImplementedError := by
  rcases h1 with h1 | ⟨hb, v, hv, hd⟩
  · simp only [BaseResponse.from_structure, h1, h2, h3, ok_bind, reduceIte,
      Bool.false_eq_true, if_false, pure_eq_ok]
  · have hIs := contains_of_getItem s "is" v hv
    simp only [BaseResponse.from_structure, hIs, hb, hv, hd, h2, h3, ok_bind,
      reduceIte, Bool.false_eq_true, if_false]

/-- C5 witness: the empty document raises the unrecognized-shape error. -/
theorem C5_unrecognized_witness :
    BaseResponse.from_structure (.obj []) = .error .notImplementedError :=
  C5_unrecognized_amended (.obj []) (Or.inl rfl) rfl rfl

/-- C6: the caseSensitive asymmetry of `PredicateGenerator` — serialization
always emits the `caseSensitive` key carrying the stored flag (whose
constructor default is `True`), while parsing a document without the
`caseSensitive` key yields `case_sensitive = False`. -/
theorem C6_caseSensitive :
    PredicateGenerator.defaultInit.case_sensitive = .bool true ∧
    (∀ pg : PredicateGenerator,
      pyGetItem pg.as_structure "caseSensitive" = .ok pg.case_sensitive) ∧
    (∀ kvs pg, getKey? kvs "caseSensitive" = none →
      PredicateGenerator.from_structure (.obj kvs) = .ok pg →
      pg.case_sensitive = .bool false) := by
  refine ⟨rfl, fun pg => rfl, fun kvs pg hnone hok => ?_⟩
  rw [(pg_from_ok_inv kvs pg hok).1, hnone]
  rfl

/-- The predicate generator parsed from `{"matches": {}}`. -/
def pgC6 : PredicateGenerator := ⟨.null, .null, .EQUALS, .bool false⟩

/-- C6 witness: parsing a concrete document without `caseSensitive` yields
`case_sensitive = False`, although the constructor default is `True`. -/
theorem C6_caseSensitive_witness :
    PredicateGenerator.from_structure (.obj [("matches", .obj [])]) =
        .ok pgC6 ∧
    pgC6.case_sensitive = .bool false ∧
    PredicateGenerator.defaultInit.case_sensitive = .bool true :=
  ⟨rfl, C6_caseSensitive.2.2 [("matches", .obj [])] pgC6 rfl rfl,
   C6_caseSensitive.1⟩

/-- C7: the operator asymmetry of `PredicateGenerator` — `as_structure` never
emits an `operator` key; `from_structure` resolves the operator by enum-name
lookup, yielding EQUALS when the key is absent and propagating the
invalid-enum lookup error (a `KeyError` from `Predicate.Operator[name]`) when
the name under `operator` is not a known member. -/
theorem C7_operator :
    (∀ pg : PredicateGenerator,
      pyContains pg.as_structure "operator" = .ok false) ∧
    (∀ kvs pg, getKey? kvs "operator" = none →
      PredicateGenerator.from_structure (.obj kvs) = .ok pg →
      pg.operator = Predicate.Operator.EQUALS) ∧
    (∀ kvs m ov, getKey? kvs "matches" = some (.obj m) →
      getKey? kvs "operator" = some ov →
      Predicate.Operator.fromItem ov = .error .keyError →
      PredicateGenerator.from_structure (.obj kvs) = .error .keyError) := by
  refine ⟨fun pg => rfl, fun kvs pg hnone hok => ?_, pg_from_operator_error⟩
  exact (pg_from_ok_inv kvs pg hok).2 hnone

/-- C7 witness: at concrete inputs — no `operator` key emitted for the
default generator; a missing `operator` parses to EQUALS; an unknown name
(`"BOGUS"`) makes parsing fail with the enum lookup `KeyError`. -/
theorem C7_operator_witness :
    pyContains PredicateGenerator.defaultInit.as_structure "operator" =
        .ok false ∧
    pgC6.operator = Predicate.Operator.EQUALS ∧
    Predicate.Operator.fromItem (.str "BOGUS") = .error .keyError ∧
    PredicateGenerator.from_structure
        (.obj [("matches", .obj []), ("operator", .str "BOGUS")]) =
      .error .keyError :=
  ⟨C7_operator.1 PredicateGenerator.defaultInit,
   C7_operator.2.1 [("matches", .obj [])] pgC6 rfl rfl,
   rfl,
   C7_operator.2.2 [("matches", .obj []), ("operator", .str "BOGUS")] []
     (.str "BOGUS") rfl rfl rfl⟩

/-- C8: the proxy default-mode scenario — `Proxy(to="http://origin")` with the
source defaults (`wait=None`, `inject_headers=None`, `mode=Mode.ONCE`,
`predicate_generators=None`) serializes to exactly
`{"proxy": {"to": "http://origin", "mode": "proxyOnce"}}`: mode defaults to
ONCE, and the absent `wait`/`inject_headers` and empty
`predicate_generators` contribute no keys. -/
theorem C8_proxy_default :
    (Proxy.init (.str "http://origin") .null .null .ONCE none).as_structure =
      .obj [("proxy", .obj [("to", .str "http://origin"),
        ("mode", .str "proxyOnce")])] := rfl

/-- C9: `Response.from_structure` treats `is._mode` as required — for every
document whose `is` block (a mapping) lacks the `_mode` key, parsing fails
with a missing-key error — whereas `body`, `headers` and `statusCode` may all
be absent without error: an `is` block containing only a valid `_mode` parses
successfully into the defaults. -/
theorem C9_mode_required :
    (∀ s inner, pyGetItem s "is" = .ok (.obj inner) →
      getKey? inner "_mode" = none →
      Response.from_structure s = .error .keyError) ∧
    (∀ inner mv md, getKey? inner "_mode" = some mv →
      Response.Mode.ofValue mv = .ok md →
      getKey? inner "body" = none → getKey? inner "headers" = none →
      getKey? inner "statusCode" = none →
      Response.from_structure (.obj [("is", .obj inner)]) =
        .ok ⟨.str "", .num 200, .null, .null, .null, md, none, .null, none,
          .null⟩) :=
  ⟨response_missing_mode, response_parse_sparse⟩

/-- C9 witness: `{"is": {"statusCode": 200}}` fails with the missing-key
error, while `{"is": {"_mode": "text"}}` — lacking `body`, `headers` and
`statusCode` — parses successfully. -/
theorem C9_mode_required_witness :
    Response.from_structure (.obj [("is", .obj [("statusCode", .num 200)])]) =
        .error .keyError ∧
    Response.from_structure (.obj [("is", .obj [("_mode", .str "text")])]) =
      .ok ⟨.str "", .num 200, .null, .null, .null, .TEXT, none, .null, none,
        .null⟩ :=
  ⟨C9_mode_required.1 (.obj [("is", .obj [("statusCode", .num 200)])])
      [("statusCode", .num 200)] rfl rfl,
   C9_mode_required.2 [("_mode", .str "text")] (.str "text") .TEXT
      rfl rfl rfl rfl rfl⟩

/-- C10: a `Proxy`'s `predicate_generators` is never null — the constructor
stores the empty list when the argument is `None`, stores the given list
unchanged otherwise, and `from_structure` of a document whose `proxy` block
lacks `predicateGenerators` yields a proxy whose `predicate_generators` is
the empty list. -/
theorem C10_pgs_never_none :
    (∀ t w ih m, (Proxy.init t w ih m none).predicate_generators = []) ∧
    (∀ t w ih m pgs,
      (Proxy.init t w ih m (some pgs)).predicate_generators = pgs) ∧
    (∀ s ps p, pyGetItem s "proxy" = .ok (.obj ps) →
      getKey? ps "predicateGenerators" = none →
      Proxy.from_structure s = .ok p → p.predicate_generators = []) :=
  ⟨fun _ _ _ _ => rfl, fun _ _ _ _ _ => rfl, proxy_from_ok_pgs⟩

/-- C10 witness: parsing a concrete proxy document without
`predicateGenerators` yields the empty list, and the constructor cases at
concrete arguments. -/
theorem C10_pgs_never_none_witness :
    Proxy.from_structure dC1proxy =
        .ok (Proxy.init (.furl ⟨"http://u"⟩) .null .null .ONCE none) ∧
    (Proxy.init (.furl ⟨"http://u"⟩) .null .null .ONCE
        none).predicate_generators = [] ∧
    (Proxy.init (.str "u") .null .null .ALWAYS
        (some [PredicateGenerator.defaultInit])).predicate_generators =
      [PredicateGenerator.defaultInit] :=
  ⟨rfl,
   C10_pgs_never_none.2.2 dC1proxy
     [("to", .str "http://u"), ("mode", .str "proxyOnce")]
     (Proxy.init (.furl ⟨"http://u"⟩) .null .null .ONCE none) rfl rfl rfl,
   C10_pgs_never_none.2.1 (.str "u") .null .null .ALWAYS
     [PredicateGenerator.defaultInit]⟩
